import Mathlib

/-!
Shallow embedding of the Recognition Reconciliation Engine of the
Shazam-Tool repository (src/modules/resultFileOperations.py,
src/modules/trackValidation.py, src/modules/trackRecognition.py,
src/modules/core/helper.py, src/modules/core/constants.py).

Files are modelled as lists of lines (each line without its trailing
newline); Python dictionaries are modelled as association lists in
insertion order; Python exceptions are modelled with Option (none = the
operation raised).  External collaborators (the Recognizer and the
Segmenter) are passed in as oracle functions, as the spec's §6 contracts
prescribe.
-/

/-- Value of a decimal digit character, as Python int() sees it
(c.toNat - 48; callers only apply it to digit characters). -/
def charVal (c : Char) : Nat := c.toNat - 48

/-- Decimal digit character for a value below ten (callers guarantee the
bound; the catch-all keeps the function total). -/
def digitChar : Nat → Char
  | 0 => '0' | 1 => '1' | 2 => '2' | 3 => '3' | 4 => '4'
  | 5 => '5' | 6 => '6' | 7 => '7' | 8 => '8' | 9 => '9'
  | _ => '0'

/-- Decimal digits of a natural number, fuel-structured so that the kernel
can evaluate it (fuel is always sufficient at `n + 1`). -/
def natDigitsAux : Nat → Nat → List Char
  | 0, _ => []
  | Nat.succ f, n => if n < 10 then [digitChar n] else natDigitsAux f (n / 10) ++ [digitChar (n % 10)]

/-- Decimal digit list of a natural number (models Python's `d`-formatting
of a nonnegative integer). -/
def natDigits (n : Nat) : List Char := natDigitsAux (n + 1) n

/-- Numeric value of a digit list, most significant digit first (models
what Python's int() computes on a digit string). -/
def digitsToNat (l : List Char) : Nat := l.foldl (fun a c => a * 10 + charVal c) 0

/-- All characters are decimal digits. -/
def allDigits (l : List Char) : Bool := l.all Char.isDigit

/-- Python int() on an unsigned digit string: the value when the string is
nonempty and all digits, otherwise a ValueError (none). -/
def pyIntDigits (l : List Char) : Option Nat :=
  match l with
  | [] => none
  | _ => if allDigits l then some (digitsToNat l) else none

/-- Python str.strip(): remove leading and trailing whitespace. -/
def pyStripL (l : List Char) : List Char :=
  ((l.dropWhile Char.isWhitespace).reverse.dropWhile Char.isWhitespace).reverse

/-- Python int() on an arbitrary string: strip whitespace, accept one
optional sign, then a nonempty digit string; anything else raises
ValueError (none).  (Underscored and non-ASCII digit literals, which
Python also accepts, do not occur in this code base and are not
modelled.) -/
def pyIntL (l : List Char) : Option Int :=
  match pyStripL l with
  | [] => none
  | c :: rest =>
    if c = '-' then (pyIntDigits rest).map (fun n => -(n : Int))
    else if c = '+' then (pyIntDigits rest).map (fun n => (n : Int))
    else (pyIntDigits (c :: rest)).map (fun n => (n : Int))

/-- Python int() on a String. -/
def pyInt (s : String) : Option Int := pyIntL s.data

/-- Python str.split on a single-character separator. -/
def splitChar (sep : Char) : List Char → List (List Char)
  | [] => [[]]
  | c :: cs =>
    if c = sep then [] :: splitChar sep cs
    else
      match splitChar sep cs with
      | [] => [[c]]
      | g :: gs => (c :: g) :: gs

/-- `beginsWith pre l` is true when `pre` is an initial run of `l`
(Python str.startswith on the underlying characters). -/
def beginsWith : List Char → List Char → Bool
  | [], _ => true
  | _ :: _, [] => false
  | p :: ps, c :: cs => if p = c then beginsWith ps cs else false

/-- Python str.startswith. -/
def strBegins (s pre : String) : Bool := beginsWith pre.data s.data

/-- Substring containment on character lists (Python's `sub in s`). -/
def hasSub (sub : List Char) : List Char → Bool
  | [] => beginsWith sub []
  | c :: cs => if beginsWith sub (c :: cs) then true else hasSub sub cs

/-- Python's `sub in s` on Strings. -/
def strHasSub (s sub : String) : Bool := hasSub sub.data s.data

/-- Python str.split on a multi-character separator, fuel-structured; the
fuel `input length + 1` is always sufficient because every step consumes
at least one character or ends the input. -/
def pySplitAux (sep : List Char) : Nat → List Char → List Char → List (List Char)
  | 0, rest, acc => [acc.reverse ++ rest]
  | Nat.succ _, [], acc => [acc.reverse]
  | Nat.succ f, c :: cs, acc =>
    if beginsWith sep (c :: cs) then acc.reverse :: pySplitAux sep f ((c :: cs).drop sep.length) []
    else pySplitAux sep f cs (c :: acc)

/-- Python `s.split(sep)` for a nonempty separator. -/
def pySplit (s sep : String) : List String :=
  (pySplitAux sep.data (s.data.length + 1) s.data []).map (fun l => ⟨l⟩)

/-- Python `s.split(sep, maxsplit)`: at most `maxs` splits, the remainder
is kept whole as the final part. -/
def pySplitNAux (sep : List Char) : Nat → Nat → List Char → List Char → List (List Char)
  | 0, _, rest, acc => [acc.reverse ++ rest]
  | Nat.succ _, _, [], acc => [acc.reverse]
  | Nat.succ _, 0, c :: cs, acc => [acc.reverse ++ (c :: cs)]
  | Nat.succ f, Nat.succ k2, c :: cs, acc =>
    if beginsWith sep (c :: cs) then acc.reverse :: pySplitNAux sep f k2 ((c :: cs).drop sep.length) []
    else pySplitNAux sep f (Nat.succ k2) cs (c :: acc)

/-- Python `s.split(sep, maxsplit)`. -/
def pySplitN (s sep : String) (maxs : Nat) : List String :=
  (pySplitNAux sep.data (s.data.length + 1) maxs s.data []).map (fun l => ⟨l⟩)

/-- Python `sep.join(parts)`. -/
def joinSep (sep : String) : List String → String
  | [] => ""
  | x :: xs => xs.foldl (fun a b => a ++ sep ++ b) x

/-- List membership for strings, by decidable equality. -/
def memStr (s : String) : List String → Bool
  | [] => false
  | x :: xs => if s = x then true else memStr s xs

/-- List membership for integers, by decidable equality. -/
def memInt (n : Int) : List Int → Bool
  | [] => false
  | x :: xs => if n = x then true else memInt n xs

/-- Python str.isdigit (restricted to ASCII digits, the only ones this
code base produces). -/
def pyIsDigit (s : String) : Bool :=
  match s.data with
  | [] => false
  | _ => allDigits s.data

/-- Lexicographic (code-point) order on character lists, as Python
compares strings. -/
def listCharLt : List Char → List Char → Bool
  | [], [] => false
  | [], _ :: _ => true
  | _ :: _, [] => false
  | a :: as2, b :: bs => if a < b then true else if b < a then false else listCharLt as2 bs

/-- Python's `<` on strings. -/
def strLt (a b : String) : Bool := listCharLt a.data b.data

/-- The members of the SegmentStatus enum exactly as
src/modules/core/constants.py defines them; each member's .value equals
its name. -/
def segmentStatusMembers : List String :=
  ["FOUND", "NOT_FOUND", "TIMEOUT", "ERROR",
   "VALIDATION_VALIDATED", "VALIDATION_FALSE_POSITIVE", "VALIDATION_UNCERTAIN",
   "VALIDATION_WRONG_VERSION", "FOUND_MERGED"]

/-- Evaluating `SegmentStatus.<name>.value`: the value when the member
exists, none when Python raises AttributeError (the enum has no such
member). -/
def segmentStatusValue (name : String) : Option String :=
  if memStr name segmentStatusMembers then some name else none

/-- Evaluating a Python list literal `[SegmentStatus.<n1>.value, ...]`:
the whole literal raises (none) as soon as one member is missing. -/
def evalStatusValues (names : List String) : Option (List String) :=
  names.mapM segmentStatusValue

/-- The list literal of analyze_result_file line 39
(resultFileOperations.py): `[FOUND, FOUND_VALIDATED,
FOUND_FALSE_POSITIVE, FOUND_UNCERTAIN]` member values. -/
def analyzeFoundList : Option (List String) :=
  evalStatusValues ["FOUND", "FOUND_VALIDATED", "FOUND_FALSE_POSITIVE", "FOUND_UNCERTAIN"]

/-- The list literal of analyze_result_file line 51: `[TIMEOUT, ERROR]`
member values. -/
def rescanStatusList : Option (List String) :=
  evalStatusValues ["TIMEOUT", "ERROR"]

/-- The list literal of read_result_file line 115. -/
def readFoundList : Option (List String) :=
  evalStatusValues ["FOUND", "FOUND_VALIDATED", "FOUND_FALSE_POSITIVE", "FOUND_UNCERTAIN", "FOUND_MERGED"]

/-- The list literal of generate_tracklist_and_log line 171 (scan-log
formatting). -/
def genScanList : Option (List String) :=
  evalStatusValues ["FOUND", "FOUND_VALIDATED", "FOUND_FALSE_POSITIVE", "FOUND_UNCERTAIN", "FOUND_MERGED"]

/-- The list literal of generate_tracklist_and_log line 177 (tracklist
membership). -/
def genTracklistList : Option (List String) :=
  evalStatusValues ["FOUND", "FOUND_VALIDATED", "FOUND_MERGED"]

/-- The list literal of analyze_false_positive_candidates line 49:
`[FOUND, VALIDATION_VALIDATED]` member values (both exist). -/
def fpCountList : Option (List String) :=
  evalStatusValues ["FOUND", "VALIDATION_VALIDATED"]

/-- SEGMENT_LENGTH from constants.py: duration of each segment in
milliseconds. -/
def SEGMENT_LENGTH : Nat := 10 * 1000

/-- parse_timestamp from core/helper.py: split on ':' and combine the
first three int() conversions; none models the ValueError / IndexError
the source raises on malformed input. -/
def parse_timestamp (s : String) : Option Int :=
  match splitChar ':' s.data with
  | p0 :: p1 :: p2 :: _ => do
    let h ← pyIntL p0
    let m ← pyIntL p1
    let sec ← pyIntL p2
    pure (h * 3600 + m * 60 + sec)
  | _ => none

/-- Decimal digit characters of an integer (Python `d`-formatting). -/
def intDigits (n : Int) : List Char :=
  match n with
  | Int.ofNat m => natDigits m
  | Int.negSucc m => '-' :: natDigits (m + 1)

/-- Python `f"{n:02d}"`: pad to two characters with a leading zero (the
sign counts towards the width, so only values 0..9 are padded). -/
def pad02 (n : Int) : List Char :=
  if 0 ≤ n ∧ n < 10 then '0' :: intDigits n else intDigits n

/-- format_timestamp from core/helper.py: HH:MM:SS via floor division and
nonnegative remainders (Python // and % on a nonnegative value; the
source accepts a float, but every call site passes a whole number of
seconds, for which int() truncation is exact). -/
def format_timestamp (seconds : Int) : String :=
  ⟨pad02 (Int.fdiv seconds 3600) ++ ':' ::
    (pad02 (Int.fdiv (Int.emod seconds 3600) 60) ++ ':' :: pad02 (Int.emod seconds 60))⟩

/-- Python `int(t / (SEGMENT_LENGTH / 1000))` = `int(t / 10.0)`:
truncation toward zero, exact in double precision for every |t| < 2^52,
far beyond any timestamp this tool meets. -/
def truncDiv10 (t : Int) : Int :=
  if 0 ≤ t then ((t.toNat / 10 : Nat) : Int) else -(((-t).toNat / 10 : Nat) : Int)

/-- One segment record of the in-memory map: `{"status": ..., "track": ...}`. -/
structure Segment where
  status : String
  track : String
deriving DecidableEq

/-- Python dict lookup on an insertion-ordered association list. -/
def lookupStr {α : Type} : List (String × α) → String → Option α
  | [], _ => none
  | (k2, v) :: rest, k => if k2 = k then some v else lookupStr rest k

/-- Python dict assignment: update in place when the key exists (keeping
its position), append otherwise. -/
def setStr {α : Type} : List (String × α) → String → α → List (String × α)
  | [], k, v => [(k, v)]
  | (k2, v2) :: rest, k, v => if k2 = k then (k, v) :: rest else (k2, v2) :: setStr rest k v

/-- Python `key in dict`. -/
def hasKey {α : Type} (m : List (String × α)) (k : String) : Bool := (lookupStr m k).isSome

/-- Stable insertion by the integer component (ascending), placing new
elements before later equal keys exactly as Python's stable sort keeps
original order. -/
def insertByTs (x : String × Int) : List (String × Int) → List (String × Int)
  | [] => [x]
  | y :: ys => if y.2 < x.2 then y :: insertByTs x ys else x :: y :: ys

/-- Stable ascending sort by the integer component (models Python
`sorted(..., key=...)` over precomputed integer keys). -/
def sortByTs (l : List (String × Int)) : List (String × Int) := l.foldr insertByTs []

/-- Pair each segment key with its parse_timestamp value; none models the
exception `sorted(keys, key=parse_timestamp)` raises on the first
malformed key. -/
def parsedKeys (segments : List (String × Segment)) : Option (List (String × Int)) :=
  segments.mapM (fun p => (parse_timestamp p.1).map (fun t => (p.1, t)))

/-- Line loop of analyze_result_file (resultFileOperations.py lines
20-55), carrying the in_scan_log flag, the rescan list and the maximum
segment number.  `none` is the AttributeError that evaluating the line-39
status list raises (SegmentStatus has no member FOUND_VALIDATED) and that
only the outer `except Exception` catches; returning `some` covers both
the normal end of the file and the `break` on the section marker that
ends the Scan Log section. -/
def analyzeLoop : List String → Bool → List Int → Int → Option (List Int × Int)
  | [], _, resc, maxSeg => some (resc, maxSeg)
  | l :: rest, inScan, resc, maxSeg =>
    let line : String := ⟨pyStripL l.data⟩
    if line = "===== Scan Log =====" then analyzeLoop rest true resc maxSeg
    else if strBegins line "=====" ∧ inScan then some (resc, maxSeg)
    else if inScan ∧ strHasSub line " - " ∧ ¬ strBegins line "=====" then
      let parts := pySplit line " - "
      if 2 ≤ parts.length then
        let ts := parts.getD 0 ""
        let statusEval : Option String :=
          if 3 ≤ parts.length then
            match analyzeFoundList with
            | none => none
            | some _ => some (parts.getD 1 "")
          else some (parts.getD 1 "")
        match statusEval with
        | none => none
        | some status =>
          match parse_timestamp ts with
          | none => analyzeLoop rest inScan resc maxSeg
          | some t =>
            let segNum := truncDiv10 t + 1
            let maxSeg2 := max maxSeg segNum
            match rescanStatusList with
            | none => none
            | some rvals =>
              if memStr status rvals then analyzeLoop rest inScan (resc ++ [segNum]) maxSeg2
              else analyzeLoop rest inScan resc maxSeg2
      else analyzeLoop rest inScan resc maxSeg
    else analyzeLoop rest inScan resc maxSeg

/-- analyze_result_file (resultFileOperations.py lines 8-61) on the lines
of an existing result file: rescan segment numbers and maximum segment
number; the outer `except Exception` turns any raised error into the
default empty answer. -/
def analyze_result_file (lines : List String) : List Int × Int :=
  match analyzeLoop lines false [] 0 with
  | some r => r
  | none => ([], 0)

/-- Line loop of read_result_file (resultFileOperations.py lines 81-130):
header, current section name, segments dict and tracklist dict in
insertion order.  The Bool is false when the loop was cut short by the
AttributeError of evaluating the line-115 status list (any Scan Log line
with three or more " - " parts); the partially filled state survives
because the source's `except` only logs and the function returns what it
has. -/
def readLoop : List String → String → String → List (String × Segment) →
    List (String × String) → (String × List (String × Segment) × List (String × String) × Bool)
  | [], hd, _, segs, td => (hd, segs, td, true)
  | l :: rest, hd, sec, segs, td =>
    let line : String := ⟨pyStripL l.data⟩
    if strBegins line "===== Scan results for" then readLoop rest line sec segs td
    else if line = "===== Tracklist =====" then readLoop rest hd "tracklist" segs td
    else if line = "===== Scan Log =====" then readLoop rest hd "scan_log" segs td
    else if strHasSub line " - " ∧ ¬ strBegins line "=====" ∧
        ¬ strBegins line "nr - time" ∧ ¬ strBegins line "number - time" then
      let parts := pySplit line " - "
      if 2 ≤ parts.length then
        let ts := parts.getD 0 ""
        if sec = "tracklist" then
          if pyIsDigit ts then
            if 4 ≤ parts.length then
              let ts2 := parts.getD 1 ""
              let artist : String := ⟨pyStripL (parts.getD 2 "").data⟩
              let title := joinSep " - " (parts.drop 3)
              readLoop rest hd sec segs (setStr td ts2 (artist ++ " - " ++ title))
            else readLoop rest hd sec segs td
          else
            let track := joinSep " - " (parts.drop 1)
            readLoop rest hd sec segs (setStr td ts track)
        else if sec = "scan_log" then
          if 3 ≤ parts.length then
            match readFoundList with
            | none => (hd, segs, td, false)
            | some vals =>
              -- unreachable: readFoundList always raises; kept for structure
              if memStr (parts.getD 1 "") vals then
                let status := parts.getD 1 ""
                let track := joinSep " - " (parts.drop 2)
                readLoop rest hd sec (setStr segs ts ⟨status, track⟩) td
              else
                let status := parts.getD 1 ""
                let segs2 :=
                  match lookupStr segs ts with
                  | some old => setStr segs ts ⟨status, old.track⟩
                  | none => setStr segs ts ⟨status, ""⟩
                readLoop rest hd sec segs2 td
          else
            let status := parts.getD 1 ""
            let segs2 :=
              match lookupStr segs ts with
              | some old => setStr segs ts ⟨status, old.track⟩
              | none => setStr segs ts ⟨status, ""⟩
            readLoop rest hd sec segs2 td
        else readLoop rest hd sec segs td
      else readLoop rest hd sec segs td
    else readLoop rest hd sec segs td

/-- read_result_file (resultFileOperations.py lines 64-151): parse the
file's lines, then (only when no exception cut the loop short) merge the
Tracklist data into the segments and default missing FOUND tracks to
"Unknown Track".  The FOUND member exists, so the merge itself cannot
raise. -/
def read_result_file (lines : List String) : String × List (String × Segment) :=
  match readLoop lines "" "none" [] [] with
  | (hd, segs, td, true) =>
    let segs2 := td.foldl (fun acc (p : String × String) =>
      match lookupStr acc p.1 with
      | some old => setStr acc p.1 ⟨old.status, p.2⟩
      | none => setStr acc p.1 ⟨"FOUND", p.2⟩) segs
    let segs3 := segs2.map (fun p =>
      if p.2.track = "" then
        if p.2.status = "FOUND" then (p.1, ⟨p.2.status, "Unknown Track"⟩)
        else (p.1, ⟨p.2.status, ""⟩)
      else p)
    (hd, segs3)
  | (hd, segs, _, false) => (hd, segs)

/-- One row of the condensed tracklist before number formatting. -/
structure TLRow where
  timestamp : String
  artist : String
  title : String
deriving DecidableEq

/-- Main loop of generate_tracklist_and_log (resultFileOperations.py
lines 165-190) over the timestamp-sorted keys: build the scan log and
the deduplicated tracklist rows.  `none` models the two uncaught
exceptions of the loop body: KeyError cannot happen (the keys come from
the same dict), but evaluating the line-171 status list raises
AttributeError on the very first iteration because SegmentStatus has no
member FOUND_VALIDATED. -/
def genLoop (segments : List (String × Segment)) :
    List String → List TLRow → List String → List String → Option (List TLRow × List String)
  | [], tl, sl, _ => some (tl, sl)
  | ts :: rest, tl, sl, seen =>
    match lookupStr segments ts with
    | none => none
    | some data =>
      match genScanList with
      | none => none
      | some vals =>
        let sl2 :=
          if memStr data.status vals ∧ data.track ≠ "" then
            sl ++ [ts ++ " - " ++ data.status ++ " - " ++ data.track]
          else sl ++ [ts ++ " - " ++ data.status]
        match genTracklistList with
        | none => none
        | some vals2 =>
          if memStr data.status vals2 ∧ ¬ memStr data.track seen then
            let row : TLRow :=
              if strHasSub data.track " - " then
                let ps := pySplitN data.track " - " 1
                ⟨ts, ps.getD 0 "", ps.getD 1 ""⟩
              else ⟨ts, "Unknown Artist", data.track⟩
            genLoop segments rest (tl ++ [row]) sl2 (seen ++ [data.track])
          else genLoop segments rest tl sl2 seen

/-- Row-number column of the tracklist (two leading spaces below 10, one
below 100, none above). -/
def numberStr (idx : Nat) : String :=
  if idx < 10 then "  " ++ (⟨natDigits idx⟩ : String)
  else if idx < 100 then " " ++ (⟨natDigits idx⟩ : String)
  else (⟨natDigits idx⟩ : String)

/-- Number-and-format loop of generate_tracklist_and_log (lines 196-207),
counting from 1. -/
def formatTLAux : Nat → List TLRow → List String
  | _, [] => []
  | idx, r :: rest =>
    (numberStr idx ++ " - " ++ r.timestamp ++ " - " ++ r.artist ++ " - " ++ r.title) ::
      formatTLAux (idx + 1) rest

/-- generate_tracklist_and_log (resultFileOperations.py lines 154-209):
sort the keys by parse_timestamp (raising on a malformed key), run the
main loop, format the tracklist rows.  `none` is an uncaught
exception. -/
def generate_tracklist_and_log (segments : List (String × Segment)) :
    Option (List String × List String) :=
  match parsedKeys segments with
  | none => none
  | some keyed =>
    match genLoop segments ((sortByTs keyed).map Prod.fst) [] [] [] with
    | none => none
    | some (tlData, scanLog) => some (formatTLAux 1 tlData, scanLog)

/-- write_result_file (resultFileOperations.py lines 212-232): the lines
of the file it writes — header, blank line, Tracklist section, blank
line, Scan Log section.  `none` is the exception
generate_tracklist_and_log raises before anything is written (the
source's `except OSError` does not catch it). -/
def write_result_file (header : String) (segments : List (String × Segment)) :
    Option (List String) :=
  (generate_tracklist_and_log segments).map (fun p =>
    [header, "", "===== Tracklist ====="] ++ p.1 ++ ["", "===== Scan Log ====="] ++ p.2)

/-- One validation candidate of analyze_false_positive_candidates
(trackValidation.py lines 67-75). -/
structure Candidate where
  track : String
  count : Nat
  positions : List (String × Int)
  start_timestamp : String
  end_timestamp : String
  duration_seconds : Int
  suspicion_level : String
deriving DecidableEq

/-- The summary dict of analyze_false_positive_candidates (lines 81-87). -/
structure FPSummary where
  total_unique_tracks : Nat
  validation_candidates : Nat
  high_suspicion : Nat
  medium_suspicion : Nat
  low_suspicion : Nat
deriving DecidableEq

/-- The seconds computation of analyze_false_positive_candidates lines
57-58 (`int(tp[0])*3600 + int(tp[1])*60 + int(tp[2])` after splitting on
':'), character for character the same computation as parse_timestamp. -/
def fpSeconds (ts : String) : Option Int := parse_timestamp ts

/-- Line loop of analyze_false_positive_candidates (trackValidation.py
lines 29-59): per-track occurrence counts and position lists, keyed by
exact track string in first-occurrence order.  A line is only considered
when it contains the substring " - FOUND" (so a VALIDATION_VALIDATED line
never reaches the status check); `none` is the ValueError of the
timestamp-to-seconds conversion, which only the outer `except Exception`
catches. -/
def fpLoop : List String → Bool → List (String × Nat × List (String × Int)) →
    Option (List (String × Nat × List (String × Int)))
  | [], _, acc => some acc
  | l :: rest, inScan, acc =>
    let line : String := ⟨pyStripL l.data⟩
    if line = "===== Scan Log =====" then fpLoop rest true acc
    else if strBegins line "=====" ∧ inScan then some acc
    else if inScan ∧ strHasSub line " - FOUND" then
      let parts := pySplit line " - "
      if 3 ≤ parts.length then
        let ts := parts.getD 0 ""
        let status := parts.getD 1 ""
        let track := joinSep " - " (parts.drop 2)
        match fpCountList with
        | none => none
        | some vals =>
          if memStr status vals then
            match fpSeconds ts with
            | none => none
            | some secs =>
              let entry := (lookupStr acc track).getD (0, [])
              fpLoop rest inScan (setStr acc track (entry.1 + 1, entry.2 ++ [(ts, secs)]))
          else fpLoop rest inScan acc
      else fpLoop rest inScan acc
    else fpLoop rest inScan acc

/-- Suspicion level per occurrence count (trackValidation.py line 74). -/
def suspicionLevel (count : Nat) : String :=
  if count = 1 then "HIGH" else if count = 2 then "MEDIUM" else "LOW"

/-- Candidate construction of analyze_false_positive_candidates (lines
62-76), iterating the count dict in insertion order; positions are
sorted by their seconds value.  The positions list is never empty when
a track is in the dict, so the getD defaults are never used. -/
def mkCandidates (threshold : Nat) : List (String × Nat × List (String × Int)) → List Candidate
  | [] => []
  | (track, cnt, poss) :: rest =>
    if cnt ≤ threshold then
      let positions := sortByTs poss
      { track := track, count := cnt, positions := positions,
        start_timestamp := (positions.getD 0 ("", 0)).1,
        end_timestamp := if 1 < cnt then (positions.getLastD ("", 0)).1 else (positions.getD 0 ("", 0)).1,
        duration_seconds := if 1 < cnt then (positions.getLastD ("", 0)).2 - (positions.getD 0 ("", 0)).2 else 0,
        suspicion_level := suspicionLevel cnt } :: mkCandidates threshold rest
    else mkCandidates threshold rest

/-- Python's tuple order `(count, start_timestamp)` used as a strict sort
key (line 79). -/
def candKeyLt (a b : Candidate) : Bool :=
  decide (a.count < b.count) || (decide (a.count = b.count) && strLt a.start_timestamp b.start_timestamp)

/-- Stable insertion for the candidate sort. -/
def insertCand (x : Candidate) : List Candidate → List Candidate
  | [] => [x]
  | y :: ys => if candKeyLt y x then y :: insertCand x ys else x :: y :: ys

/-- Stable ascending sort of candidates by `(count, start_timestamp)`. -/
def sortCands (l : List Candidate) : List Candidate := l.foldr insertCand []

/-- analyze_false_positive_candidates (trackValidation.py lines 15-95) on
the lines of a result file: the sorted candidate list and the summary
dict; on any raised error the outer `except` returns the empty default
(modelled with summary `none`, the empty dict). -/
def analyze_false_positive_candidates (lines : List String) (threshold : Nat) :
    List Candidate × Option FPSummary :=
  match fpLoop lines false [] with
  | none => ([], none)
  | some counts =>
    let cands := sortCands (mkCandidates threshold counts)
    ( cands,
      some { total_unique_tracks := counts.length,
             validation_candidates := cands.length,
             high_suspicion := (cands.filter (fun c => decide (c.count = 1))).length,
             medium_suspicion := (cands.filter (fun c => decide (c.count = 2))).length,
             low_suspicion := (cands.filter (fun c => decide (c.count = 3))).length } )

/-- One entry of the extended_segments dict of
validate_segment_with_extended_audio (trackValidation.py lines 136-139 and
150-154): the Recognizer's status and track plus the precomputed
matches_original flag (`track == original if status == 'FOUND' else
False`). -/
structure ExtResult where
  status : String
  track : String
  matches_original : Bool
deriving DecidableEq

/-- Occurrences of a string in a list (Python list.count). -/
def countStr (l : List String) (x : String) : Nat :=
  (l.filter (fun y => decide (y = x))).length

/-- Python `max(set(alt_tracks), key=alt_tracks.count)` (line 175): an
element of maximal count.  Python iterates the set in implementation-
defined hash order and keeps the first maximal element of that order; the
model keeps the first maximal element in list order, which agrees with
the source whenever the maximum is unique (and is otherwise one of the
tied maximal elements, as in the source). -/
def mostFrequent (l : List String) : Option String :=
  match l with
  | [] => none
  | x :: _ => some (l.foldl (fun best y => if countStr l best < countStr l y then y else best) x)

/-- The extended_segments entries in mode order for the three modes
before/after/both: `none` is a mode whose extended segment could not be
created (`continue`, no dict entry); `some (status, track)` is the
Recognizer's answer, with an exception during a mode recorded by the
source itself as an ("ERROR", "") entry. -/
def extEntries (orig : String) (outcomes : List (Option (String × String))) : List ExtResult :=
  outcomes.filterMap (fun o => o.map (fun p =>
    { status := p.1, track := p.2,
      matches_original := if p.1 = "FOUND" then decide (p.2 = orig) else false }))

/-- found_results of validate_segment_with_extended_audio (lines
157-158): the entries whose status is FOUND. -/
def foundResults (orig : String) (outcomes : List (Option (String × String))) : List ExtResult :=
  (extEntries orig outcomes).filter (fun r => decide (r.status = "FOUND"))

/-- Classification part of validate_segment_with_extended_audio
(trackValidation.py lines 160-178): validation_status and the suggested
alternative track (present only in the LIKELY_FALSE_POSITIVE case). -/
def classifyExtended (orig : String) (outcomes : List (Option (String × String))) :
    String × Option String :=
  if foundResults orig outcomes = [] then ("NO_EXTENDED_RECOGNITION", none)
  else if 2 ≤ ((foundResults orig outcomes).filter (fun r => r.matches_original)).length then
    ("CONFIRMED_VALID", none)
  else if 2 ≤ ((foundResults orig outcomes).filter (fun r => !r.matches_original)).length then
    ("LIKELY_FALSE_POSITIVE",
      mostFrequent (((foundResults orig outcomes).filter (fun r => !r.matches_original)).map
        (fun r => r.track)))
  else ("UNCERTAIN", none)

/-- Status written back by validate_single_file (trackValidation.py lines
236-259) for each validation_status; the four written statuses are
existing SegmentStatus members, `none` means no branch applies and the
segment is left as it is. -/
def validationFinalStatus (vs : String) : Option String :=
  if vs = "LIKELY_FALSE_POSITIVE" then segmentStatusValue "VALIDATION_FALSE_POSITIVE"
  else if vs = "NO_EXTENDED_RECOGNITION" then segmentStatusValue "VALIDATION_FALSE_POSITIVE"
  else if vs = "CONFIRMED_VALID" then segmentStatusValue "VALIDATION_VALIDATED"
  else if vs = "UNCERTAIN" then segmentStatusValue "VALIDATION_UNCERTAIN"
  else none

/-- The successful recognitions among the three modes: the tracks of the
outcomes whose status is FOUND (a spec-side notion used to state C4). -/
def succTracks (outcomes : List (Option (String × String))) : List String :=
  ((outcomes.filterMap id).filter (fun p => decide (p.1 = "FOUND"))).map (fun p => p.2)

/-- The successful recognitions that disagree with the original track
(spec-side notion). -/
def diffTracks (orig : String) (outcomes : List (Option (String × String))) : List String :=
  (succTracks outcomes).filter (fun t => !decide (t = orig))

/-- Claim C4 exactly as the spec words it: LIKELY_FALSE_POSITIVE requires
at least two successful recognitions that agree WITH EACH OTHER on a
track different from the original. -/
def claimClassifyStatus (orig : String) (outcomes : List (Option (String × String))) : String :=
  if succTracks outcomes = [] then "NO_EXTENDED_RECOGNITION"
  else if 2 ≤ ((succTracks outcomes).filter (fun t => decide (t = orig))).length then
    "CONFIRMED_VALID"
  else if (succTracks outcomes).any (fun t =>
      !decide (t = orig) && decide (2 ≤ countStr (succTracks outcomes) t)) then
    "LIKELY_FALSE_POSITIVE"
  else "UNCERTAIN"

/-- Amended claim C4 (what the code does): LIKELY_FALSE_POSITIVE requires
at least two successful recognitions different from the original, whether
or not they agree with each other; the suggestion is a most frequent
track among those. -/
def amendedClassify (orig : String) (outcomes : List (Option (String × String))) :
    String × Option String :=
  if succTracks outcomes = [] then ("NO_EXTENDED_RECOGNITION", none)
  else if 2 ≤ ((succTracks outcomes).filter (fun t => decide (t = orig))).length then
    ("CONFIRMED_VALID", none)
  else if 2 ≤ (diffTracks orig outcomes).length then
    ("LIKELY_FALSE_POSITIVE", mostFrequent (diffTracks orig outcomes))
  else ("UNCERTAIN", none)

/-- One parsed tracklist entry of validate_wrong_versions
(trackValidation.py lines 547-559). -/
structure TrackEntry where
  timestamp : String
  artist : String
  title : String
deriving DecidableEq

/-- Tracklist parsing of validate_wrong_versions (lines 548-559): split
each formatted line on " - " with maxsplit 3 and keep lines with at
least four parts. -/
def parseTracklistData (tracklist : List String) : List TrackEntry :=
  tracklist.filterMap (fun line =>
    let parts := pySplitN line " - " 3
    if 4 ≤ parts.length then
      some ⟨parts.getD 1 "", parts.getD 2 "", parts.getD 3 ""⟩
    else none)

/-- resolve_wrong_version_with_shazam (trackValidation.py lines 467-526)
reduced to what reaches the caller: the Segmenter+Recognizer call over
the merged span is the oracle (`none` = segment creation failed or an
exception, which the source converts to an ERROR answer); the float
confidence is dropped because the caller only logs it. -/
def resolveWrongVersion (recog : String → String → Option (String × String))
    (startTs endTs : String) : String × String :=
  match recog startTs endTs with
  | none => ("ERROR", "")
  | some (st, tr) => if st = "FOUND" then ("FOUND", tr) else (st, "")

/-- Pair loop of validate_wrong_versions (trackValidation.py lines
581-640): for each detected index pair gather the related segments from
the ORIGINAL file data (track equal to either member, status FOUND or
VALIDATION_VALIDATED — string literals in the source), sort them by
parse_timestamp (none = the uncaught exception on a malformed key), take
the span, resolve it, and on success rewrite each gathered segment in
the updated dict to VALIDATION_VALIDATED when its track equals the
recognized one and to VALIDATION_WRONG_VERSION otherwise (both existing
members); on failure the pair leaves the dict untouched. -/
def vwvPairLoop (recog : String → String → Option (String × String))
    (origSegments : List (String × Segment)) (tlData : List TrackEntry) :
    List (Nat × Nat) → List (String × Segment) → Option (List (String × Segment))
  | [], updated => some updated
  | (i, j) :: rest, updated =>
    let t1 := tlData.getD i ⟨"", "", ""⟩
    let t2 := tlData.getD j ⟨"", "", ""⟩
    let track1 := t1.artist ++ " - " ++ t1.title
    let track2 := t2.artist ++ " - " ++ t2.title
    let related := (origSegments.filter (fun p =>
      (p.2.track = track1 ∨ p.2.track = track2) ∧
        memStr p.2.status ["FOUND", "VALIDATION_VALIDATED"])).map Prod.fst
    if related = [] then vwvPairLoop recog origSegments tlData rest updated
    else
      match related.mapM (fun k => (parse_timestamp k).map (fun t => (k, t))) with
      | none => none
      | some keyed =>
        let sortedR := (sortByTs keyed).map Prod.fst
        let res := resolveWrongVersion recog (sortedR.getD 0 "") (sortedR.getLastD "")
        if res.1 = "FOUND" then
          let updated2 := sortedR.foldl (fun acc ts =>
            match lookupStr acc ts with
            | none => acc
            | some sd =>
              if sd.track = res.2 then setStr acc ts ⟨"VALIDATION_VALIDATED", sd.track⟩
              else setStr acc ts ⟨"VALIDATION_WRONG_VERSION", sd.track⟩) updated
          vwvPairLoop recog origSegments tlData rest updated2
        else vwvPairLoop recog origSegments tlData rest updated

/-- validate_wrong_versions (trackValidation.py lines 529-645).  The
detection step (detect_wrong_version_pairs) compares difflib float
ratios against thresholds, so it is passed in as an oracle over the
parsed tracklist entries; method tag and similarity score are dropped
because the source only logs them.  Result: outer `none` = an uncaught
exception; `some none` = an early return without writing the file;
`some (some lines)` = the file was rewritten with these lines. -/
def validate_wrong_versions (detect : List TrackEntry → List (Nat × Nat))
    (recog : String → String → Option (String × String)) (lines : List String) :
    Option (Option (List String)) :=
  let fd := read_result_file lines
  match generate_tracklist_and_log fd.2 with
  | none => none
  | some (tracklist, _) =>
    let tlData := parseTracklistData tracklist
    if tlData.length < 2 then some none
    else
      let pairs := detect tlData
      if pairs = [] then some none
      else
        match vwvPairLoop recog fd.2 tlData pairs fd.2 with
        | none => none
        | some updated =>
          match write_result_file fd.1 updated with
          | none => none
          | some out => some (some out)

/-- Per-segment loop of one rescan round (trackRecognition.py lines
192-217), iterating segment indices 1..totalSegs (the Segmenter's slice
files in order): only flagged indices are re-recognized; `recog round
idx` is the Recognizer call for that round (`none` = an exception,
caught by the loop's `except` and skipped); a result whose status is not
TIMEOUT is written back into the map under the segment's timestamp and
sets the improvement flag. -/
def rescanSegLoop (recog : Nat → Nat → Option (String × String)) (round : Nat)
    (rescanList : List Int) : Nat → Nat → List (String × Segment) → Bool →
    List (String × Segment) × Bool
  | 0, _, segs, imp => (segs, imp)
  | Nat.succ rem, idx, segs, imp =>
    if memInt (idx : Int) rescanList then
      let ts := format_timestamp (((idx - 1) * (SEGMENT_LENGTH / 1000) : Nat) : Int)
      match recog round idx with
      | none => rescanSegLoop recog round rescanList rem (idx + 1) segs imp
      | some (st, tr) =>
        if st ≠ "TIMEOUT" then
          rescanSegLoop recog round rescanList rem (idx + 1) (setStr segs ts ⟨st, tr⟩) true
        else rescanSegLoop recog round rescanList rem (idx + 1) segs imp
    else rescanSegLoop recog round rescanList rem (idx + 1) segs imp

/-- Round loop of rescan_timeouts_with_retry (trackRecognition.py lines
168-224): analyze the file, stop when nothing is flagged, otherwise read
it, re-recognize the flagged segments and rewrite the file; `none` is
the uncaught exception write_result_file raises.  The 60-second
cool-down only spends time and is not modelled. -/
def rescanRounds (recog : Nat → Nat → Option (String × String)) (totalSegs : Nat) :
    Nat → Nat → Bool → List String → Option (Bool × List String)
  | 0, _, imp, lines => some (imp, lines)
  | Nat.succ rem, round, imp, lines =>
    let info := analyze_result_file lines
    if info.1 = [] then some (imp, lines)
    else
      let fd := read_result_file lines
      let step := rescanSegLoop recog round info.1 totalSegs 1 fd.2 imp
      match write_result_file fd.1 step.1 with
      | none => none
      | some out => rescanRounds recog totalSegs rem (round + 1) step.2 out

/-- rescan_timeouts_with_retry (trackRecognition.py lines 158-227):
returns the improvement flag and the final file lines, or `none` when a
round's final write raises. -/
def rescan_timeouts_with_retry (recog : Nat → Nat → Option (String × String))
    (totalSegs : Nat) (lines : List String) (max_retries : Nat) : Option (Bool × List String) :=
  rescanRounds recog totalSegs max_retries 0 false lines

/-- Status of a segment key in the map (`segments[timestamp]["status"]`). -/
def statusAt (segments : List (String × Segment)) (ts : String) : Option String :=
  (lookupStr segments ts).map Segment.status

/-- range_timestamps of sliding_window_merge_recognition
(trackRecognition.py lines 282-289): the NOT_FOUND segments between the
run's bounds, in timestamp order, each with its parsed seconds; `none`
is the uncaught exception parse_timestamp or the key sort raises on
malformed input. -/
def rangeTimestamps (start_ts end_ts : String) (segments : List (String × Segment)) :
    Option (List (String × Int)) :=
  match parse_timestamp start_ts, parse_timestamp end_ts with
  | some ss, some es =>
    match parsedKeys segments with
    | none => none
    | some keyed =>
      some ((sortByTs keyed).filter (fun p =>
        decide (ss ≤ p.2) && decide (p.2 ≤ es) &&
          decide (statusAt segments p.1 = some "NOT_FOUND")))
  | _, _ => none

/-- The (window size, start offset) pairs in exactly the order the two
nested loops of sliding_window_merge_recognition enumerate them (lines
292-298): sizes 3 up to the run length, and for each size every start
offset from 0. -/
def searchPairs (n : Nat) : List (Nat × Nat) :=
  (List.range' 3 (n - 2)).flatMap (fun size =>
    (List.range (n - size + 1)).map (fun i => (size, i)))

/-- The merged window tried for a (size, offset) pair: its start
timestamp and its end timestamp `window_end + SEGMENT_LENGTH // 1000`
(lines 297-302). -/
def windowOf (rts : List (String × Int)) (p : Nat × Nat) : String × String :=
  ((rts.getD p.2 ("", 0)).1,
   format_timestamp ((rts.getD (p.2 + p.1 - 1) ("", 0)).2 + ((SEGMENT_LENGTH / 1000 : Nat) : Int)))

/-- Whether the Segmenter+Recognizer oracle answers FOUND for a window
(`none` = segment creation failed or an exception, both `continue`). -/
def isHit (oracle : String → String → Option (String × String)) (w : String × String) : Bool :=
  match oracle w.1 w.2 with
  | some (st, _) => decide (st = "FOUND")
  | none => false

/-- The nested window loops of sliding_window_merge_recognition (lines
292-330) flattened over the ordered pair list: the first window the
oracle recognizes (status FOUND) ends the search with its track and
bounds. -/
def runSearch (oracle : String → String → Option (String × String))
    (rts : List (String × Int)) : List (Nat × Nat) → Option (String × String × String)
  | [] => none
  | p :: rest =>
    let w := windowOf rts p
    match oracle w.1 w.2 with
    | some (st, tr) => if st = "FOUND" then some (tr, w.1, w.2) else runSearch oracle rts rest
    | none => runSearch oracle rts rest

/-- sliding_window_merge_recognition (trackRecognition.py lines 273-333):
`(success, track, successful_start, successful_end)`, or `none` for the
uncaught exception on malformed timestamps.  The segment_count argument
is only logged by the source. -/
def sliding_window_merge_recognition (oracle : String → String → Option (String × String))
    (start_ts end_ts : String) (_segment_count : Nat) (segments : List (String × Segment)) :
    Option (Bool × String × String × String) :=
  match rangeTimestamps start_ts end_ts segments with
  | none => none
  | some rts =>
    match runSearch oracle rts (searchPairs rts.length) with
    | some (tr, ws, we) => some (true, tr, ws, we)
    | none => some (false, "", "", "")

/-- Item loop of update_segments_with_found_track (trackRecognition.py
lines 263-269): every segment whose parsed timestamp lies in the
inclusive range becomes `{status: FOUND_MERGED, track}` (an existing
member) regardless of its previous status; `none` is the uncaught
exception on a malformed key. -/
def updLoop (ss es : Int) (track : String) :
    List (String × Segment) → Option (List (String × Segment) × Nat)
  | [] => some ([], 0)
  | (ts, d) :: rest =>
    match parse_timestamp ts with
    | none => none
    | some t =>
      match updLoop ss es track rest with
      | none => none
      | some (rest2, n) =>
        if ss ≤ t ∧ t ≤ es then some ((ts, ⟨"FOUND_MERGED", track⟩) :: rest2, n + 1)
        else some ((ts, d) :: rest2, n)

/-- update_segments_with_found_track (trackRecognition.py lines 255-270):
parse the range bounds, then rewrite every segment inside the inclusive
range and count the updates. -/
def update_segments_with_found_track (segments : List (String × Segment))
    (start_ts end_ts track : String) : Option (List (String × Segment) × Nat) :=
  match parse_timestamp start_ts, parse_timestamp end_ts with
  | some ss, some es => updLoop ss es track segments
  | _, _ => none

/-- Concrete segment map for the sliding-window witness: a run of four
NOT_FOUND segments between two matched ones. -/
def swSegments : List (String × Segment) :=
  [("00:00:00", ⟨"FOUND", "Early - Hit"⟩), ("00:00:10", ⟨"NOT_FOUND", ""⟩),
   ("00:00:20", ⟨"NOT_FOUND", ""⟩), ("00:00:30", ⟨"NOT_FOUND", ""⟩),
   ("00:00:40", ⟨"NOT_FOUND", ""⟩), ("00:00:50", ⟨"FOUND", "Late - Hit"⟩)]

/-- Concrete recognition oracle for the sliding-window witness: both the
size-3 window at offset 0 and the size-4 window at offset 0 would
succeed. -/
def swOracle (ws we : String) : Option (String × String) :=
  if ws = "00:00:10" ∧ we = "00:00:40" then some ("FOUND", "Merged - Hit")
  else if ws = "00:00:10" ∧ we = "00:00:50" then some ("FOUND", "Merged - Other")
  else none

/-- Concrete segment map for the update witness: three NOT_FOUND segments
followed by a FOUND segment with a different track at exactly
window_end + segment_length, and one segment beyond the range. -/
def updWitnessSegs : List (String × Segment) :=
  [("00:00:10", ⟨"NOT_FOUND", ""⟩), ("00:00:20", ⟨"NOT_FOUND", ""⟩),
   ("00:00:30", ⟨"NOT_FOUND", ""⟩),
   ("00:00:40", ⟨"FOUND", "Another Artist - Another Track"⟩),
   ("00:00:50", ⟨"FOUND", "Keep - Me"⟩)]

/-- The value update_segments_with_found_track computes on the update
witness: everything in [00:00:10, 00:00:40] overwritten, the rest kept,
four updates counted. -/
def updWitnessOut : List (String × Segment) × Nat :=
  ([("00:00:10", ⟨"FOUND_MERGED", "New - Track"⟩), ("00:00:20", ⟨"FOUND_MERGED", "New - Track"⟩),
    ("00:00:30", ⟨"FOUND_MERGED", "New - Track"⟩), ("00:00:40", ⟨"FOUND_MERGED", "New - Track"⟩),
    ("00:00:50", ⟨"FOUND", "Keep - Me"⟩)], 4)

/-- The two-character-minimum digit group Python's `f"{m:02d}"` produces
for a nonnegative value (proof-side normal form of pad02 on a Nat). -/
def padNat (m : Nat) : List Char := if m < 10 then '0' :: natDigits m else natDigits m

lemma charVal_digitChar {n : Nat} (h : n < 10) : charVal (digitChar n) = n := by
  interval_cases n <;> decide

lemma digitChar_isDigit {n : Nat} (h : n < 10) : (digitChar n).isDigit = true := by
  interval_cases n <;> decide

lemma digitsToNat_append_one (l : List Char) (c : Char) :
    digitsToNat (l ++ [c]) = digitsToNat l * 10 + charVal c := by
  simp [digitsToNat, List.foldl_append]

lemma natDigitsAux_correct : ∀ f n, n < 10 ^ f → digitsToNat (natDigitsAux f n) = n := by
  intro f
  induction f with
  | zero => intro n h; simp [natDigitsAux, digitsToNat]; omega
  | succ f ih =>
    intro n h
    by_cases h10 : n < 10
    · simp only [natDigitsAux, if_pos h10]
      show 0 * 10 + charVal (digitChar n) = n
      rw [charVal_digitChar h10]; omega
    · simp only [natDigitsAux, if_neg h10]
      rw [digitsToNat_append_one, ih (n / 10) ?_, charVal_digitChar (Nat.mod_lt n (by norm_num))]
      · omega
      · rw [Nat.div_lt_iff_lt_mul (by norm_num)]
        calc n < 10 ^ (f + 1) := h
        _ = 10 ^ f * 10 := by ring

lemma natDigits_correct (n : Nat) : digitsToNat (natDigits n) = n := by
  refine natDigitsAux_correct (n + 1) n ?_
  calc n < 2 ^ n := Nat.lt_two_pow n
  _ ≤ 10 ^ n := Nat.pow_le_pow_left (by norm_num) n
  _ ≤ 10 ^ (n + 1) := Nat.pow_le_pow_right (by norm_num) (Nat.le_succ n)

lemma natDigitsAux_all_digit : ∀ f n, allDigits (natDigitsAux f n) = true := by
  intro f
  induction f with
  | zero => intro n; rfl
  | succ f ih =>
    intro n
    by_cases h10 : n < 10
    · simp [natDigitsAux, if_pos h10, allDigits, digitChar_isDigit h10]
    · simp only [natDigitsAux, if_neg h10, allDigits, List.all_append, Bool.and_eq_true]
      refine ⟨?_, ?_⟩
      · simpa [allDigits] using ih (n / 10)
      · simp [digitChar_isDigit (Nat.mod_lt n (by norm_num))]

lemma natDigits_all_digit (n : Nat) : allDigits (natDigits n) = true := natDigitsAux_all_digit _ _

lemma natDigitsAux_ne_nil (f n : Nat) (h : 0 < f) : natDigitsAux f n ≠ [] := by
  cases f with
  | zero => omega
  | succ f =>
    by_cases h10 : n < 10 <;> simp [natDigitsAux, h10]

lemma natDigits_ne_nil (n : Nat) : natDigits n ≠ [] := natDigitsAux_ne_nil _ _ (by omega)

lemma natDigits_length2 {n : Nat} (h : 10 ≤ n) : 2 ≤ (natDigits n).length := by
  have hn : ¬ n < 10 := by omega
  have hlen : 0 < (natDigitsAux n (n / 10)).length :=
    List.length_pos.mpr (natDigitsAux_ne_nil n (n / 10) (by omega))
  show 2 ≤ (natDigitsAux (n + 1) n).length
  rw [show natDigitsAux (n + 1) n = natDigitsAux n (n / 10) ++ [digitChar (n % 10)] from by
    simp [natDigitsAux, if_neg hn]]
  simp only [List.length_append, List.length_cons, List.length_nil]
  omega

lemma digit_ne {c : Char} (h : c.isDigit = true) {d : Char} (hd : d.isDigit = false) : c ≠ d := by
  intro he; rw [he, hd] at h; cases h

lemma digit_not_ws {c : Char} (h : c.isDigit = true) : c.isWhitespace = false := by
  rcases eq_or_ne c ' ' with rfl | h1
  · exact absurd h (by decide)
  rcases eq_or_ne c '\t' with rfl | h2
  · exact absurd h (by decide)
  rcases eq_or_ne c '\n' with rfl | h3
  · exact absurd h (by decide)
  rcases eq_or_ne c '\r' with rfl | h4
  · exact absurd h (by decide)
  simp [Char.isWhitespace, h1, h2, h3, h4]

lemma dropWhile_ws_digits {l : List Char} (h : allDigits l = true) :
    l.dropWhile Char.isWhitespace = l := by
  cases l with
  | nil => rfl
  | cons c cs =>
    have hc : c.isDigit = true := by
      simp [allDigits, Bool.and_eq_true] at h; exact h.1
    simp [List.dropWhile, digit_not_ws hc]

lemma allDigits_reverse {l : List Char} (h : allDigits l = true) : allDigits l.reverse = true := by
  simpa [allDigits] using h

lemma pyStripL_digits {l : List Char} (h : allDigits l = true) : pyStripL l = l := by
  unfold pyStripL
  rw [dropWhile_ws_digits h, dropWhile_ws_digits (allDigits_reverse h), List.reverse_reverse]

lemma pyIntL_digits {l : List Char} (h : allDigits l = true) (hne : l ≠ []) :
    pyIntL l = some ((digitsToNat l : Nat) : Int) := by
  obtain ⟨c, rest, rfl⟩ := List.exists_cons_of_ne_nil hne
  have hc : c.isDigit = true := by
    simp [allDigits, Bool.and_eq_true] at h; exact h.1
  unfold pyIntL
  rw [pyStripL_digits h]
  simp only [digit_ne hc (show ('-' : Char).isDigit = false by decide),
    digit_ne hc (show ('+' : Char).isDigit = false by decide), if_neg, ite_false]
  rw [show pyIntDigits (c :: rest) =
    if allDigits (c :: rest) then some (digitsToNat (c :: rest)) else none from rfl]
  rw [if_pos h]
  rfl

lemma splitChar_not_mem {sep : Char} : ∀ {l : List Char}, sep ∉ l → splitChar sep l = [l] := by
  intro l
  induction l with
  | nil => intro _; rfl
  | cons c cs ih =>
    intro h
    have hc : ¬ c = sep := fun he => h (by simp [he])
    have hcs : sep ∉ cs := fun hm => h (by simp [hm])
    simp only [splitChar, if_neg hc, ih hcs]

lemma splitChar_append {sep : Char} (r : List Char) :
    ∀ {a : List Char}, sep ∉ a → splitChar sep (a ++ sep :: r) = a :: splitChar sep r := by
  intro a
  induction a with
  | nil => intro _; simp [splitChar]
  | cons c cs ih =>
    intro h
    have hc : ¬ c = sep := fun he => h (by simp [he])
    have hcs : sep ∉ cs := fun hm => h (by simp [hm])
    have h2 := ih hcs
    simp only [List.cons_append, splitChar, if_neg hc, List.append_eq, h2]

lemma allDigits_not_colon {l : List Char} (h : allDigits l = true) : (':' : Char) ∉ l := by
  intro hm
  simp [allDigits] at h
  have := h ':' hm
  exact absurd this (by decide)

lemma pad02_ofNat (m : Nat) : pad02 ((m : Nat) : Int) = padNat m := by
  unfold pad02 padNat
  by_cases h : m < 10
  · rw [if_pos ⟨Int.ofNat_nonneg m, by exact_mod_cast h⟩, if_pos h]; rfl
  · rw [if_neg ?_, if_neg h]
    · rfl
    · rintro ⟨_, hlt⟩; exact h (by exact_mod_cast hlt)

lemma padNat_all_digit (m : Nat) : allDigits (padNat m) = true := by
  unfold padNat
  by_cases h : m < 10 <;> simp [h, allDigits]
  · have := natDigits_all_digit m
    simp [allDigits] at this
    exact this
  · have := natDigits_all_digit m
    simpa [allDigits] using this

lemma padNat_ne_nil (m : Nat) : padNat m ≠ [] := by
  unfold padNat
  by_cases h : m < 10 <;> simp [h, natDigits_ne_nil]

lemma padNat_length2 (m : Nat) : 2 ≤ (padNat m).length := by
  unfold padNat
  by_cases h : m < 10
  · rw [if_pos h]
    have := List.length_pos.mpr (natDigits_ne_nil m)
    simp only [List.length_cons]
    omega
  · rw [if_neg h]
    exact natDigits_length2 (by omega)

lemma digitsToNat_cons_zero (l : List Char) : digitsToNat ('0' :: l) = digitsToNat l := by
  rw [show digitsToNat ('0' :: l) =
    List.foldl (fun a c => a * 10 + charVal c) (0 * 10 + charVal '0') l from rfl]
  rw [show (0 * 10 + charVal '0') = 0 from by decide]
  rfl

lemma digitsToNat_padNat (m : Nat) : digitsToNat (padNat m) = m := by
  unfold padNat
  by_cases h : m < 10
  · rw [if_pos h, digitsToNat_cons_zero, natDigits_correct]
  · rw [if_neg h, natDigits_correct]

lemma int_fdiv_ofNat (a b : Nat) : Int.fdiv (a : Int) (b : Int) = ((a / b : Nat) : Int) := by
  cases a with
  | zero => simp [Int.fdiv]
  | succ k => rfl

lemma int_emod_ofNat (a b : Nat) : Int.emod (a : Int) (b : Int) = ((a % b : Nat) : Int) := by
  cases a with
  | zero => simp [Int.emod]
  | succ k => rfl

lemma format_timestamp_data (s : Nat) :
    (format_timestamp (s : Int)).data =
      padNat (s / 3600) ++ ':' :: (padNat (s % 3600 / 60) ++ ':' :: padNat (s % 60)) := by
  show pad02 (Int.fdiv (s : Int) 3600) ++ ':' ::
      (pad02 (Int.fdiv (Int.emod (s : Int) 3600) 60) ++ ':' :: pad02 (Int.emod (s : Int) 60)) = _
  rw [show ((3600 : Int)) = ((3600 : Nat) : Int) from rfl,
    show ((60 : Int)) = ((60 : Nat) : Int) from rfl,
    int_fdiv_ofNat, int_emod_ofNat, int_fdiv_ofNat, int_emod_ofNat,
    pad02_ofNat, pad02_ofNat, pad02_ofNat]

lemma parse_three_groups {A B C : List Char}
    (hA : allDigits A = true) (hB : allDigits B = true) (hC : allDigits C = true)
    (hAne : A ≠ []) (hBne : B ≠ []) (hCne : C ≠ []) :
    parse_timestamp ⟨A ++ ':' :: (B ++ ':' :: C)⟩ =
      some ((digitsToNat A : Int) * 3600 + (digitsToNat B : Int) * 60 + (digitsToNat C : Int)) := by
  unfold parse_timestamp
  rw [show (⟨A ++ ':' :: (B ++ ':' :: C)⟩ : String).data = A ++ ':' :: (B ++ ':' :: C) from rfl]
  rw [splitChar_append _ (allDigits_not_colon hA), splitChar_append _ (allDigits_not_colon hB),
    splitChar_not_mem (allDigits_not_colon hC)]
  rw [show (A :: B :: [C] : List (List Char)) = A :: B :: C :: [] from rfl]
  simp only [pyIntL_digits hA hAne, pyIntL_digits hB hBne, pyIntL_digits hC hCne,
    Option.bind_eq_bind, Option.some_bind]
  rfl

lemma updLoop_spec (ss es : Int) (track : String) :
    ∀ (segments : List (String × Segment)) (out : List (String × Segment) × Nat),
      updLoop ss es track segments = some out →
      out.1.map Prod.fst = segments.map Prod.fst ∧
      ∀ i, i < segments.length →
        ∃ t, parse_timestamp (segments.getD i ("", ⟨"", ""⟩)).1 = some t ∧
          out.1.getD i ("", ⟨"", ""⟩) =
            ((segments.getD i ("", ⟨"", ""⟩)).1,
             if ss ≤ t ∧ t ≤ es then (⟨"FOUND_MERGED", track⟩ : Segment)
             else (segments.getD i ("", ⟨"", ""⟩)).2) := by
  intro segments
  induction segments with
  | nil =>
    intro out h
    simp only [updLoop, Option.some_inj] at h
    subst h
    exact ⟨rfl, fun i hi => absurd hi (by simp)⟩
  | cons p rest ih =>
    intro out h
    obtain ⟨ts, d⟩ := p
    simp only [updLoop] at h
    cases hp : parse_timestamp ts with
    | none => rw [hp] at h; cases h
    | some t =>
      rw [hp] at h
      cases hr : updLoop ss es track rest with
      | none => rw [hr] at h; cases h
      | some out2 =>
        rw [hr] at h
        obtain ⟨rest2, n⟩ := out2
        dsimp only at h
        obtain ⟨ihm, ihi⟩ := ih (rest2, n) hr
        by_cases hin : ss ≤ t ∧ t ≤ es
        · rw [if_pos hin, Option.some_inj] at h
          subst h
          constructor
          · simpa using ihm
          · intro i hi
            cases i with
            | zero => exact ⟨t, hp, by simp [hin]⟩
            | succ j =>
              have hj : j < rest.length := by simpa using hi
              simpa using ihi j hj
        · rw [if_neg hin, Option.some_inj] at h
          subst h
          constructor
          · simpa using ihm
          · intro i hi
            cases i with
            | zero => exact ⟨t, hp, by simp [hin]⟩
            | succ j =>
              have hj : j < rest.length := by simpa using hi
              simpa using ihi j hj

lemma foundResults_cons_none (orig : String) (rest : List (Option (String × String))) :
    foundResults orig (none :: rest) = foundResults orig rest := by
  simp [foundResults, extEntries]

lemma foundResults_cons_some (orig st tr : String) (rest : List (Option (String × String))) :
    foundResults orig (some (st, tr) :: rest) =
      if st = "FOUND" then (⟨st, tr, decide (tr = orig)⟩ : ExtResult) :: foundResults orig rest
      else foundResults orig rest := by
  by_cases h : st = "FOUND"
  · subst h; simp [foundResults, extEntries]
  · simp [foundResults, extEntries, h]

lemma succTracks_cons_none (rest : List (Option (String × String))) :
    succTracks (none :: rest) = succTracks rest := by
  simp [succTracks]

lemma succTracks_cons_some (st tr : String) (rest : List (Option (String × String))) :
    succTracks (some (st, tr) :: rest) =
      if st = "FOUND" then tr :: succTracks rest else succTracks rest := by
  by_cases h : st = "FOUND"
  · subst h; simp [succTracks]
  · simp [succTracks, h]

lemma ext_entry_lists (orig : String) : ∀ outcomes : List (Option (String × String)),
    ((foundResults orig outcomes).map (fun r => r.track) = succTracks outcomes) ∧
    (((foundResults orig outcomes).filter (fun r => r.matches_original)).map (fun r => r.track) =
      (succTracks outcomes).filter (fun t => decide (t = orig))) ∧
    (((foundResults orig outcomes).filter (fun r => !r.matches_original)).map (fun r => r.track) =
      (succTracks outcomes).filter (fun t => !decide (t = orig))) := by
  intro outcomes
  induction outcomes with
  | nil => exact ⟨rfl, rfl, rfl⟩
  | cons o rest ih =>
    obtain ⟨ih1, ih2, ih3⟩ := ih
    rcases o with _ | ⟨st, tr⟩
    · rw [foundResults_cons_none, succTracks_cons_none]
      exact ⟨ih1, ih2, ih3⟩
    · rw [foundResults_cons_some, succTracks_cons_some]
      by_cases hst : st = "FOUND"
      · rw [if_pos hst, if_pos hst]
        by_cases htr : tr = orig
        · refine ⟨?_, ?_, ?_⟩ <;> simp [List.filter_cons, htr, ih1, ih2, ih3]
        · refine ⟨?_, ?_, ?_⟩ <;> simp [List.filter_cons, htr, ih1, ih2, ih3]
      · rw [if_neg hst, if_neg hst]
        exact ⟨ih1, ih2, ih3⟩

lemma classify_eq_amended (orig : String) (outcomes : List (Option (String × String))) :
    classifyExtended orig outcomes = amendedClassify orig outcomes := by
  obtain ⟨h1, h2, h3⟩ := ext_entry_lists orig outcomes
  unfold classifyExtended amendedClassify
  have hemp : (foundResults orig outcomes = []) ↔ (succTracks outcomes = []) := by
    rw [← h1, List.map_eq_nil_iff]
  have hlen2 : ((foundResults orig outcomes).filter (fun r => r.matches_original)).length =
      ((succTracks outcomes).filter (fun t => decide (t = orig))).length := by
    rw [← h2, List.length_map]
  have hlen3 : ((foundResults orig outcomes).filter (fun r => !r.matches_original)).length =
      (diffTracks orig outcomes).length := by
    rw [show diffTracks orig outcomes =
      (succTracks outcomes).filter (fun t => !decide (t = orig)) from rfl, ← h3, List.length_map]
  have hmf : mostFrequent (((foundResults orig outcomes).filter (fun r => !r.matches_original)).map
      (fun r => r.track)) = mostFrequent (diffTracks orig outcomes) := by
    rw [h3]; rfl
  by_cases h0 : succTracks outcomes = []
  · rw [if_pos h0, if_pos (hemp.mpr h0)]
  · rw [if_neg h0, if_neg (fun hc => h0 (hemp.mp hc))]
    by_cases hm : 2 ≤ ((succTracks outcomes).filter (fun t => decide (t = orig))).length
    · rw [if_pos hm, if_pos (by rw [hlen2]; exact hm)]
    · rw [if_neg hm, if_neg (by rw [hlen2]; exact hm)]
      by_cases hd : 2 ≤ (diffTracks orig outcomes).length
      · rw [if_pos hd, if_pos (by rw [hlen3]; exact hd), hmf]
      · rw [if_neg hd, if_neg (by rw [hlen3]; exact hd)]

lemma mostFrequent_spec (l : List String) (hne : l ≠ []) :
    ∃ t, mostFrequent l = some t ∧ t ∈ l ∧ ∀ u ∈ l, countStr l u ≤ countStr l t := by
  obtain ⟨x, rest, rfl⟩ := List.exists_cons_of_ne_nil hne
  have key : ∀ (m : List String) (acc : String), acc ∈ x :: rest → (∀ y ∈ m, y ∈ x :: rest) →
      (m.foldl (fun best y => if countStr (x :: rest) best < countStr (x :: rest) y then y else best) acc)
        ∈ x :: rest ∧
      countStr (x :: rest) acc ≤ countStr (x :: rest)
        (m.foldl (fun best y => if countStr (x :: rest) best < countStr (x :: rest) y then y else best) acc) ∧
      ∀ u ∈ m, countStr (x :: rest) u ≤ countStr (x :: rest)
        (m.foldl (fun best y => if countStr (x :: rest) best < countStr (x :: rest) y then y else best) acc) := by
    intro m
    induction m with
    | nil =>
      intro acc hacc _
      exact ⟨hacc, le_refl _, fun u hu => absurd hu (by simp)⟩
    | cons y ys ih =>
      intro acc hacc hmem
      have hy : y ∈ x :: rest := hmem y (by simp)
      have hys : ∀ z ∈ ys, z ∈ x :: rest := fun z hz => hmem z (by simp [hz])
      set acc2 := if countStr (x :: rest) acc < countStr (x :: rest) y then y else acc with hacc2
      have hacc2mem : acc2 ∈ x :: rest := by
        rw [hacc2]; split <;> assumption
      have hacc2ge : countStr (x :: rest) acc ≤ countStr (x :: rest) acc2 := by
        rw [hacc2]; split
        · omega
        · exact le_refl _
      have hyge : countStr (x :: rest) y ≤ countStr (x :: rest) acc2 := by
        rw [hacc2]; split
        · exact le_refl _
        · omega
      obtain ⟨r1, r2, r3⟩ := ih acc2 hacc2mem hys
      refine ⟨by simpa [List.foldl_cons] using r1, ?_, ?_⟩
      · calc countStr (x :: rest) acc ≤ countStr (x :: rest) acc2 := hacc2ge
        _ ≤ _ := by simpa [List.foldl_cons] using r2
      · intro u hu
        rcases List.mem_cons.mp hu with rfl | hu2
        · calc countStr (x :: rest) u ≤ countStr (x :: rest) acc2 := hyge
          _ ≤ _ := by simpa [List.foldl_cons] using r2
        · simpa [List.foldl_cons] using r3 u hu2
  obtain ⟨r1, r2, r3⟩ := key (x :: rest) x (by simp) (fun y hy => hy)
  refine ⟨_, rfl, r1, ?_⟩
  intro u hu
  exact r3 u hu

lemma runSearch_decomp (oracle : String → String → Option (String × String))
    (rts : List (String × Int)) :
    ∀ (l : List (Nat × Nat)) (tr ws we : String),
      runSearch oracle rts l = some (tr, ws, we) →
      ∃ p l1 l2, l = l1 ++ p :: l2 ∧
        (∀ q ∈ l1, isHit oracle (windowOf rts q) = false) ∧
        oracle (windowOf rts p).1 (windowOf rts p).2 = some ("FOUND", tr) ∧
        windowOf rts p = (ws, we) := by
  intro l
  induction l with
  | nil => intro tr ws we h; cases h
  | cons p rest ih =>
    intro tr ws we h
    simp only [runSearch] at h
    cases ho : oracle (windowOf rts p).1 (windowOf rts p).2 with
    | none =>
      rw [ho] at h
      obtain ⟨p2, l1, l2, hdec, hmiss, hor, hwin⟩ := ih tr ws we h
      exact ⟨p2, p :: l1, l2, by rw [hdec]; rfl,
        fun q hq => by
          rcases List.mem_cons.mp hq with rfl | hq2
          · simp [isHit, ho]
          · exact hmiss q hq2,
        hor, hwin⟩
    | some res =>
      obtain ⟨st, tr2⟩ := res
      rw [ho] at h
      dsimp only at h
      by_cases hst : st = "FOUND"
      · rw [if_pos hst] at h
        subst hst
        obtain ⟨rfl, rfl, rfl⟩ : tr2 = tr ∧ (windowOf rts p).1 = ws ∧ (windowOf rts p).2 = we := by
          injection h with h2
          injection h2 with ha hb
          injection hb with hc hd
          exact ⟨ha, hc, hd⟩
        exact ⟨p, [], rest, rfl, by simp, ho, rfl⟩
      · rw [if_neg hst] at h
        obtain ⟨p2, l1, l2, hdec, hmiss, hor, hwin⟩ := ih tr ws we h
        exact ⟨p2, p :: l1, l2, by rw [hdec]; rfl,
          fun q hq => by
            rcases List.mem_cons.mp hq with rfl | hq2
            · simp [isHit, ho, hst]
            · exact hmiss q hq2,
          hor, hwin⟩

lemma range'_mem_ge (s k : Nat) : ∀ m ∈ List.range' s k, s ≤ m ∧ m < s + k := by
  intro m hm
  have := List.mem_range'_1.mp hm
  omega

lemma searchPairs_mem {n : Nat} {p : Nat × Nat} (h : p ∈ searchPairs n) :
    3 ≤ p.1 ∧ p.1 ≤ n ∧ p.2 + p.1 ≤ n := by
  unfold searchPairs at h
  obtain ⟨size, hsize, hp⟩ := List.mem_flatMap.mp h
  obtain ⟨i, hi, rfl⟩ := List.mem_map.mp hp
  obtain ⟨h1, h2⟩ := range'_mem_ge 3 (n - 2) size hsize
  have h3 := List.mem_range.mp hi
  constructor
  · exact h1
  constructor
  · omega
  · simp only
    omega

lemma searchPairs_pairwise (n : Nat) :
    (searchPairs n).Pairwise (fun p q => p.1 < q.1 ∨ (p.1 = q.1 ∧ p.2 < q.2)) := by
  unfold searchPairs
  have hsorted : (List.range' 3 (n - 2)).Pairwise (· < ·) :=
    List.pairwise_lt_range' 3 (n - 2) 1 (by omega)
  have key : ∀ (sizes : List Nat), sizes.Pairwise (· < ·) →
      (sizes.flatMap (fun size => (List.range (n - size + 1)).map (fun i => (size, i)))).Pairwise
        (fun p q => p.1 < q.1 ∨ (p.1 = q.1 ∧ p.2 < q.2)) := by
    intro sizes
    induction sizes with
    | nil => intro _; simp
    | cons s rest ih =>
      intro hpw
      obtain ⟨hhead, htail⟩ := List.pairwise_cons.mp hpw
      rw [List.flatMap_cons]
      rw [List.pairwise_append]
      refine ⟨?_, ih htail, ?_⟩
      · rw [List.pairwise_map]
        refine List.Pairwise.imp ?_ (List.pairwise_lt_range (n - s + 1))
        intro a b hab
        exact Or.inr ⟨rfl, hab⟩
      · intro x hx y hy
        obtain ⟨i, _, rfl⟩ := List.mem_map.mp hx
        obtain ⟨s2, hs2, hy2⟩ := List.mem_flatMap.mp hy
        obtain ⟨j, _, rfl⟩ := List.mem_map.mp hy2
        exact Or.inl (hhead s2 hs2)
  exact key _ hsorted

/-- C1 (code bug): the serialization round trip `write(read(write(log)))`
never gets off the ground, because write_result_file raises
AttributeError for EVERY log with at least one segment: its helper
generate_tracklist_and_log evaluates
`SegmentStatus.FOUND_VALIDATED.value` (resultFileOperations.py line 171)
and constants.py defines no such member (it was renamed to
VALIDATION_VALIDATED).  Evaluated here at a minimal well-formed log of
one FOUND segment: nothing is persisted, so no byte-equivalent persisted
form exists. -/
theorem write_result_file_raises_on_nonempty_log :
    write_result_file "===== Scan results for mix.mp3 ======"
      [("00:00:00", ⟨"FOUND", "Artist - Title"⟩)] = none := rfl

/-- C2 (code bug): analyze_result_file is claimed to return exactly the
TIMEOUT/ERROR segment numbers of the Scan Log section, but any scan-log
line with three or more " - " parts (every FOUND line with a track)
evaluates the line-39 list `[... SegmentStatus.FOUND_VALIDATED.value ...]`,
raises AttributeError, and the outer handler returns the empty default —
so the TIMEOUT segment 2 of this file is NOT reported. -/
theorem analyze_result_file_aborts_on_found_line :
    analyze_result_file
      ["===== Scan Log =====", "00:00:00 - FOUND - Artist - Title", "00:00:10 - TIMEOUT"] =
      ([], 0) := rfl

/-- C3 (code bug): analyze_false_positive_candidates is claimed to count
segments with status FOUND or VALIDATION_VALIDATED, and its own line-39
comment says so, but the line-40 prefilter `" - FOUND" in line` drops
every VALIDATION_VALIDATED line before the status check (the substring
matched the OLD status name FOUND_VALIDATED), so this sole
VALIDATION_VALIDATED segment — count 1, which should be a HIGH-suspicion
candidate at threshold 3 — produces no candidate at all. -/
theorem analyze_false_positive_candidates_skips_validated :
    analyze_false_positive_candidates
      ["===== Scan Log =====", "00:00:00 - VALIDATION_VALIDATED - Artist - Title"] 3 =
      ([], some ⟨0, 0, 0, 0, 0⟩) := rfl

/-- C4 counterexample: with extended recognitions FOUND "Alt1 - Song" and
FOUND "Alt2 - Song" (which disagree with the original AND with each
other) plus one failed mode, the claim as stated — LIKELY_FALSE_POSITIVE
requires two successful recognitions agreeing with each other on a track
different from the original, otherwise UNCERTAIN — predicts UNCERTAIN,
but the code returns LIKELY_FALSE_POSITIVE with one of the two
disagreeing tracks as suggestion. -/
theorem validate_classification_counterexample :
    claimClassifyStatus "Orig - Song"
        [some ("FOUND", "Alt1 - Song"), some ("FOUND", "Alt2 - Song"), some ("NOT_FOUND", "")] =
      "UNCERTAIN" ∧
    classifyExtended "Orig - Song"
        [some ("FOUND", "Alt1 - Song"), some ("FOUND", "Alt2 - Song"), some ("NOT_FOUND", "")] =
      ("LIKELY_FALSE_POSITIVE", some "Alt1 - Song") := ⟨rfl, rfl⟩

/-- C4 (amended): for the three extended recognitions the first satisfied
rule wins — zero successes gives NO_EXTENDED_RECOGNITION, at least two
successes equal to the original gives CONFIRMED_VALID, at least two
successes DIFFERENT from the original (not necessarily agreeing with
each other) gives LIKELY_FALSE_POSITIVE with a most frequent differing
track as suggested alternative, otherwise UNCERTAIN; and
validate_single_file maps these to VALIDATION_FALSE_POSITIVE,
VALIDATION_VALIDATED, VALIDATION_FALSE_POSITIVE and
VALIDATION_UNCERTAIN respectively. -/
theorem validate_classification_amended (orig : String) (o1 o2 o3 : Option (String × String)) :
    classifyExtended orig [o1, o2, o3] = amendedClassify orig [o1, o2, o3] ∧
    ((classifyExtended orig [o1, o2, o3]).1 = "LIKELY_FALSE_POSITIVE" →
      ∃ t, (classifyExtended orig [o1, o2, o3]).2 = some t ∧
        t ∈ diffTracks orig [o1, o2, o3] ∧ t ≠ orig ∧
        ∀ u ∈ diffTracks orig [o1, o2, o3],
          countStr (diffTracks orig [o1, o2, o3]) u ≤ countStr (diffTracks orig [o1, o2, o3]) t) ∧
    validationFinalStatus "NO_EXTENDED_RECOGNITION" = some "VALIDATION_FALSE_POSITIVE" ∧
    validationFinalStatus "CONFIRMED_VALID" = some "VALIDATION_VALIDATED" ∧
    validationFinalStatus "LIKELY_FALSE_POSITIVE" = some "VALIDATION_FALSE_POSITIVE" ∧
    validationFinalStatus "UNCERTAIN" = some "VALIDATION_UNCERTAIN" := by
  have heq := classify_eq_amended orig [o1, o2, o3]
  refine ⟨heq, ?_, rfl, rfl, rfl, rfl⟩
  intro hlfp
  rw [heq] at hlfp ⊢
  unfold amendedClassify at hlfp ⊢
  by_cases h0 : succTracks [o1, o2, o3] = []
  · rw [if_pos h0] at hlfp; exact absurd hlfp (by decide)
  rw [if_neg h0] at hlfp ⊢
  by_cases hm : 2 ≤ ((succTracks [o1, o2, o3]).filter (fun t => decide (t = orig))).length
  · rw [if_pos hm] at hlfp; exact absurd hlfp (by decide)
  rw [if_neg hm] at hlfp ⊢
  by_cases hd : 2 ≤ (diffTracks orig [o1, o2, o3]).length
  · rw [if_pos hd]
    have hdne : diffTracks orig [o1, o2, o3] ≠ [] := by
      intro hc; rw [hc] at hd; simp at hd
    obtain ⟨t, hmf, htmem, hmax⟩ := mostFrequent_spec _ hdne
    refine ⟨t, by simpa using hmf, htmem, ?_, hmax⟩
    have := List.of_mem_filter htmem
    simpa using this
  · rw [if_neg hd] at hlfp; exact absurd hlfp (by decide)

/-- C4 witness: two extended recognitions agreeing on "Alt - Song" and
one equal to the original yield LIKELY_FALSE_POSITIVE with that track
suggested, a maximally frequent differing track. -/
theorem validate_classification_amended_witness :
    ∃ t, (classifyExtended "Orig - Song"
        [some ("FOUND", "Alt - Song"), some ("FOUND", "Alt - Song"), some ("FOUND", "Orig - Song")]).2 =
          some t ∧
      t ∈ diffTracks "Orig - Song"
        [some ("FOUND", "Alt - Song"), some ("FOUND", "Alt - Song"), some ("FOUND", "Orig - Song")] ∧
      t ≠ "Orig - Song" ∧
      ∀ u ∈ diffTracks "Orig - Song"
          [some ("FOUND", "Alt - Song"), some ("FOUND", "Alt - Song"), some ("FOUND", "Orig - Song")],
        countStr (diffTracks "Orig - Song"
          [some ("FOUND", "Alt - Song"), some ("FOUND", "Alt - Song"), some ("FOUND", "Orig - Song")]) u ≤
        countStr (diffTracks "Orig - Song"
          [some ("FOUND", "Alt - Song"), some ("FOUND", "Alt - Song"), some ("FOUND", "Orig - Song")]) t :=
  (validate_classification_amended "Orig - Song"
    (some ("FOUND", "Alt - Song")) (some ("FOUND", "Alt - Song")) (some ("FOUND", "Orig - Song"))).2.1
    (by decide)

/-- C5 (code bug): validate_wrong_versions is claimed to gather, resolve
and relabel the segments of every detected pair (or leave them unchanged
when recognition fails), but it calls generate_tracklist_and_log before
any detection (trackValidation.py line 544), which raises AttributeError
on every log with at least one parsed segment (missing enum member
FOUND_VALIDATED) — so no pair is ever detected, no segment is ever
relabelled, and the pass dies instead of completing.  Evaluated at a
one-segment log; the detection and recognition oracles are never
reached. -/
theorem validate_wrong_versions_raises_before_detection :
    validate_wrong_versions (fun _ => []) (fun _ _ => none)
      ["===== Scan Log =====", "00:00:00 - TIMEOUT"] = none := rfl

/-- C6 (code bug): the Tracklist derivation is claimed to list exactly
the matched-kind segments deduplicated by track, but
generate_tracklist_and_log raises AttributeError for every nonempty
segment map — the status lists of lines 171 and 177 name the enum
members FOUND_VALIDATED / FOUND_FALSE_POSITIVE / FOUND_UNCERTAIN that
constants.py no longer defines — so this FOUND segment produces no
tracklist at all (and the line-177 list would anyway test
FOUND_VALIDATED, not VALIDATION_VALIDATED). -/
theorem generate_tracklist_raises_on_nonempty_segments :
    generate_tracklist_and_log [("00:00:00", ⟨"FOUND", "Artist - Title"⟩)] = none := rfl

/-- C7: when sliding_window_merge_recognition succeeds, the window it
returns corresponds to a pair (size, offset) of the source's enumeration
with 3 ≤ size ≤ run length and offset + size ≤ run length, its end
timestamp is window_end + SEGMENT_LENGTH/1000 seconds, the oracle
recognized it, and it is lexicographically minimal — smallest size
first, then earliest offset — among ALL windows the oracle would
recognize, so the first successful recognition terminates the search. -/
theorem sliding_window_first_success_minimal
    (oracle : String → String → Option (String × String))
    (start_ts end_ts : String) (cnt : Nat) (segments : List (String × Segment))
    (tr ws we : String)
    (h : sliding_window_merge_recognition oracle start_ts end_ts cnt segments =
      some (true, tr, ws, we)) :
    ∃ rts p, rangeTimestamps start_ts end_ts segments = some rts ∧
      p ∈ searchPairs rts.length ∧
      3 ≤ p.1 ∧ p.1 ≤ rts.length ∧ p.2 + p.1 ≤ rts.length ∧
      windowOf rts p = (ws, we) ∧
      oracle ws we = some ("FOUND", tr) ∧
      we = format_timestamp ((rts.getD (p.2 + p.1 - 1) ("", 0)).2 + ((SEGMENT_LENGTH / 1000 : Nat) : Int)) ∧
      ∀ q ∈ searchPairs rts.length, isHit oracle (windowOf rts q) = true →
        p.1 < q.1 ∨ (p.1 = q.1 ∧ p.2 ≤ q.2) := by
  unfold sliding_window_merge_recognition at h
  cases hrts : rangeTimestamps start_ts end_ts segments with
  | none => rw [hrts] at h; cases h
  | some rts =>
    rw [hrts] at h
    dsimp only at h
    cases hrun : runSearch oracle rts (searchPairs rts.length) with
    | none => rw [hrun] at h; simp at h
    | some res =>
      obtain ⟨tr2, ws2, we2⟩ := res
      rw [hrun] at h
      dsimp only at h
      obtain ⟨rfl, rfl, rfl⟩ : tr = tr2 ∧ ws = ws2 ∧ we = we2 := by
        injection h with h2
        injection h2 with ha hb
        injection hb with hc hd
        injection hd with he hf
        exact ⟨hc.symm, he.symm, hf.symm⟩
      obtain ⟨p, l1, l2, hdec, hmiss, hor, hwin⟩ := runSearch_decomp oracle rts _ _ _ _ hrun
      have hpmem : p ∈ searchPairs rts.length := by
        rw [hdec]; exact List.mem_append_right _ (List.mem_cons_self _ _)
      obtain ⟨hb1, hb2, hb3⟩ := searchPairs_mem hpmem
      refine ⟨rts, p, rfl, hpmem, hb1, hb2, hb3, hwin, ?_, ?_, ?_⟩
      · rw [hwin] at hor
        simpa using hor
      · have h2 : (windowOf rts p).2 =
            format_timestamp ((rts.getD (p.2 + p.1 - 1) ("", 0)).2 +
              ((SEGMENT_LENGTH / 1000 : Nat) : Int)) := rfl
        rw [hwin] at h2
        simpa using h2
      · intro q hq hhit
        have hpw := searchPairs_pairwise rts.length
        rw [hdec] at hpw hq
        rcases List.mem_append.mp hq with hq1 | hq2
        · exact absurd hhit (by rw [hmiss q hq1]; simp)
        · rcases List.mem_cons.mp hq2 with rfl | hq3
          · exact Or.inr ⟨rfl, le_refl _⟩
          · have hp2 := (List.pairwise_append.mp hpw).2.1
            have := (List.pairwise_cons.mp hp2).1 q hq3
            rcases this with hlt | ⟨heq, hlt⟩
            · exact Or.inl hlt
            · exact Or.inr ⟨heq, le_of_lt hlt⟩

/-- C7 witness: on a run of four NOT_FOUND segments where the oracle
would recognize both the size-3 window at offset 0 (span
00:00:10-00:00:40) and the size-4 window at offset 0 (span
00:00:10-00:00:50), the engine selects the size-3 window — smaller
wins — and the minimality conclusion holds at that input. -/
theorem sliding_window_first_success_minimal_witness :
    sliding_window_merge_recognition swOracle "00:00:10" "00:00:40" 4 swSegments =
      some (true, "Merged - Hit", "00:00:10", "00:00:40") ∧
    isHit swOracle ("00:00:10", "00:00:50") = true ∧
    ∃ rts p, rangeTimestamps "00:00:10" "00:00:40" swSegments = some rts ∧
      p ∈ searchPairs rts.length ∧
      3 ≤ p.1 ∧ p.1 ≤ rts.length ∧ p.2 + p.1 ≤ rts.length ∧
      windowOf rts p = ("00:00:10", "00:00:40") ∧
      swOracle "00:00:10" "00:00:40" = some ("FOUND", "Merged - Hit") ∧
      "00:00:40" = format_timestamp ((rts.getD (p.2 + p.1 - 1) ("", 0)).2 +
        ((SEGMENT_LENGTH / 1000 : Nat) : Int)) ∧
      ∀ q ∈ searchPairs rts.length, isHit swOracle (windowOf rts q) = true →
        p.1 < q.1 ∨ (p.1 = q.1 ∧ p.2 ≤ q.2) :=
  ⟨by decide, by decide,
    sliding_window_first_success_minimal swOracle "00:00:10" "00:00:40" 4 swSegments
      "Merged - Hit" "00:00:10" "00:00:40" (by decide)⟩

/-- C8 (code bug): rescan_timeouts_with_retry is claimed to write
improvements back and return whether any improvement occurred, but every
round that rescans anything ends in write_result_file, which raises
AttributeError on any nonempty segment map (missing enum member
FOUND_VALIDATED) — here the single TIMEOUT segment is successfully
re-recognized (an improvement), and the function then dies at the write
instead of returning true. -/
theorem rescan_timeouts_crashes_on_improvement :
    rescan_timeouts_with_retry (fun _ _ => some ("FOUND", "Artist - Title")) 1
      ["===== Scan Log =====", "00:00:00 - TIMEOUT"] 2 = none := rfl

/-- C9: after a successful merged recognition,
update_segments_with_found_track keeps every key in place and overwrites
exactly the segments whose timestamp lies in the inclusive range
[window_start, window_end + segment_length] to FOUND_MERGED with the
matched track, regardless of their previous status, leaving every
segment outside the range unchanged. -/
theorem update_segments_overwrites_inclusive_range
    (segments : List (String × Segment)) (ws we track : String) (ss es : Int)
    (out : List (String × Segment) × Nat)
    (hws : parse_timestamp ws = some ss) (hwe : parse_timestamp we = some es)
    (h : update_segments_with_found_track segments ws we track = some out) :
    out.1.map Prod.fst = segments.map Prod.fst ∧
    ∀ i, i < segments.length →
      ∃ t, parse_timestamp (segments.getD i ("", ⟨"", ""⟩)).1 = some t ∧
        out.1.getD i ("", ⟨"", ""⟩) =
          ((segments.getD i ("", ⟨"", ""⟩)).1,
           if ss ≤ t ∧ t ≤ es then (⟨"FOUND_MERGED", track⟩ : Segment)
           else (segments.getD i ("", ⟨"", ""⟩)).2) := by
  apply updLoop_spec
  unfold update_segments_with_found_track at h
  rw [hws, hwe] at h
  exact h

/-- C9 witness: updating the range 00:00:10-00:00:40 (window end 00:00:30
plus one segment length) overwrites all four segments in the inclusive
range — in particular the segment at exactly 00:00:40, which was already
FOUND with a different track — and leaves 00:00:50 untouched. -/
theorem update_segments_overwrites_inclusive_range_witness :
    updWitnessOut.1.map Prod.fst = updWitnessSegs.map Prod.fst ∧
    ∀ i, i < updWitnessSegs.length →
      ∃ t, parse_timestamp (updWitnessSegs.getD i ("", ⟨"", ""⟩)).1 = some t ∧
        updWitnessOut.1.getD i ("", ⟨"", ""⟩) =
          ((updWitnessSegs.getD i ("", ⟨"", ""⟩)).1,
           if (10 : Int) ≤ t ∧ t ≤ (40 : Int) then (⟨"FOUND_MERGED", "New - Track"⟩ : Segment)
           else (updWitnessSegs.getD i ("", ⟨"", ""⟩)).2) :=
  update_segments_overwrites_inclusive_range updWitnessSegs "00:00:10" "00:00:40" "New - Track"
    10 40 updWitnessOut rfl rfl rfl

/-- C10: timestamp formatting round-trips — for every nonnegative whole
number of seconds s, parse_timestamp (format_timestamp s) = s, and the
formatted string has the HH:MM:SS shape: three all-digit groups of at
least two characters separated by colons, whose minute and second values
are below 60 and which reassemble to s. -/
theorem timestamp_format_parse_roundtrip (s : Nat) :
    parse_timestamp (format_timestamp (s : Int)) = some (s : Int) ∧
    ∃ hp mp sp : List Char,
      (format_timestamp (s : Int)).data = hp ++ ':' :: (mp ++ ':' :: sp) ∧
      allDigits hp = true ∧ allDigits mp = true ∧ allDigits sp = true ∧
      2 ≤ hp.length ∧ 2 ≤ mp.length ∧ 2 ≤ sp.length ∧
      digitsToNat mp < 60 ∧ digitsToNat sp < 60 ∧
      digitsToNat hp * 3600 + digitsToNat mp * 60 + digitsToNat sp = s := by
  have hdata := format_timestamp_data s
  have hstr : format_timestamp (s : Int) =
      ⟨padNat (s / 3600) ++ ':' :: (padNat (s % 3600 / 60) ++ ':' :: padNat (s % 60))⟩ := by
    apply String.ext
    rw [hdata]
  constructor
  · rw [hstr, parse_three_groups (padNat_all_digit _) (padNat_all_digit _) (padNat_all_digit _)
      (padNat_ne_nil _) (padNat_ne_nil _) (padNat_ne_nil _)]
    rw [digitsToNat_padNat, digitsToNat_padNat, digitsToNat_padNat]
    congr 1
    push_cast
    omega
  · refine ⟨padNat (s / 3600), padNat (s % 3600 / 60), padNat (s % 60), hdata,
      padNat_all_digit _, padNat_all_digit _, padNat_all_digit _,
      padNat_length2 _, padNat_length2 _, padNat_length2 _, ?_, ?_, ?_⟩
    · rw [digitsToNat_padNat]; omega
    · rw [digitsToNat_padNat]; omega
    · rw [digitsToNat_padNat, digitsToNat_padNat, digitsToNat_padNat]; omega

/-- C10 witness: the round trip evaluated at 3661 seconds (01:01:01). -/
theorem timestamp_format_parse_roundtrip_witness :
    parse_timestamp (format_timestamp ((3661 : Nat) : Int)) = some ((3661 : Nat) : Int) ∧
    ∃ hp mp sp : List Char,
      (format_timestamp ((3661 : Nat) : Int)).data = hp ++ ':' :: (mp ++ ':' :: sp) ∧
      allDigits hp = true ∧ allDigits mp = true ∧ allDigits sp = true ∧
      2 ≤ hp.length ∧ 2 ≤ mp.length ∧ 2 ≤ sp.length ∧
      digitsToNat mp < 60 ∧ digitsToNat sp < 60 ∧
      digitsToNat hp * 3600 + digitsToNat mp * 60 + digitsToNat sp = 3661 :=
  timestamp_format_parse_roundtrip 3661
